import Mathlib

/-!
Shallow embedding of the vcf_utils repository (src/subset_vep_vcf.py and
src/parse_vep_vcf.py, Python 2) together with proofs about the claims of
its specification.  Strings are embedded as lists of characters; Python
exceptions are embedded as the `Except` monad carrying the exception
message; Python floats appearing in the allele-frequency arithmetic are
embedded as rationals.
-/

namespace VcfUtils

/-- Strings of the Python program, embedded as lists of characters. -/
abbrev Str := List Char

/-- Python dictionaries with string keys and values, embedded as association
lists; a later binding for the same key shadows an earlier one, exactly as
repeated assignment into a dict does. -/
abbrev Dict := List (Str × Str)

/-! ### Generic Python-semantics helpers -/

/-- Whether the first list is a prefix of the second (executable). -/
def starts_with : Str → Str → Bool
  | [], _ => true
  | _ :: _, [] => false
  | a :: as, b :: bs => (a == b) && starts_with as bs

/-- Python's substring test `sub in s`. -/
def pyIn (sub s : Str) : Bool :=
  (List.range (s.length + 1)).any (fun i => starts_with sub (List.drop i s))

/-- Split a string at every character satisfying `p`, keeping empty segments,
as Python's `re.split` on a single-character alternation does. -/
def split_on_pred (p : Char → Bool) (s : Str) : List Str :=
  s.foldr (fun c acc =>
    match acc with
    | [] => [[c]]
    | a :: as => if p c then [] :: a :: as else (c :: a) :: as) [[]]

/-- Python's `s.split(sep)` for a single-character separator. -/
def split_on_char (sep : Char) (s : Str) : List Str :=
  split_on_pred (fun c => c == sep) s

/-- Worker for `split_on_seq`; the fuel starts at the length of the input, and
each step consumes at least one character, so the fuel never runs out. -/
def sos_aux (sep : Str) : Nat → Str → Str → List Str
  | _, [], acc => [acc.reverse]
  | 0, s, acc => [acc.reverse ++ s]
  | n + 1, c :: rest, acc =>
    if starts_with sep (c :: rest) then
      acc.reverse :: sos_aux sep n (List.drop (sep.length - 1) rest) []
    else
      sos_aux sep n rest (c :: acc)

/-- Python's `s.split(sep)` for a non-empty multi-character separator:
leftmost non-overlapping occurrences, empty segments kept. -/
def split_on_seq (sep s : Str) : List Str :=
  sos_aux sep s.length s []

/-- Python whitespace as stripped by `str.strip()`. -/
def is_space (c : Char) : Bool :=
  c == ' ' || c == '\t' || c == '\n' || c == '\r'

/-- Python's `s.strip()`. -/
def pyStrip (s : Str) : Str :=
  ((s.dropWhile is_space).reverse.dropWhile is_space).reverse

/-- Python's `s.strip('( )')` as used on parsed clauses: remove any of the
characters `(`, `)`, and space from both ends. -/
def strip_paren_space (s : Str) : Str :=
  let p := fun c => c == '(' || c == ')' || c == ' '
  ((s.dropWhile p).reverse.dropWhile p).reverse

/-- Numeric value of a decimal digit. -/
def digit? (c : Char) : Option Nat :=
  if c.isDigit then some (c.toNat - 48) else none

/-- Value of a non-empty all-digit string. -/
def digits_val : Str → Option Nat
  | [] => none
  | l =>
    l.foldl (fun acc c =>
      match acc, digit? c with
      | some a, some d => some (a * 10 + d)
      | _, _ => none) (some 0)

/-- Python's `int(s)` on the decimal strings this program feeds it
(an optional sign followed by digits); `none` embeds `ValueError`. -/
def pyInt (s : Str) : Option Int :=
  match s with
  | '-' :: rest => (digits_val rest).map (fun n => -(n : Int))
  | '+' :: rest => (digits_val rest).map (fun n => (n : Int))
  | _ => (digits_val s).map (fun n => (n : Int))

/-- Python's `float(s)` on the decimal strings this program feeds it,
embedded exactly as a rational; `none` embeds `ValueError`. -/
def pyFloatQ (s : Str) : Option ℚ :=
  let core := fun (t : Str) =>
    match split_on_char '.' t with
    | [i] => (digits_val i).map (fun n => (n : ℚ))
    | [i, f] =>
      if i = [] ∧ f = [] then none
      else
        match (if i = [] then some 0 else digits_val i),
              (if f = [] then some 0 else digits_val f) with
        | some iv, some fv => some ((iv : ℚ) + (fv : ℚ) / ((10 : ℚ) ^ f.length))
        | _, _ => none
    | _ => none
  match s with
  | '-' :: rest => (core rest).map (fun q => -q)
  | '+' :: rest => core rest
  | _ => core s

/-- Python list indexing `l[i]` with an `int` index, including negative
indices counting from the end; `none` embeds `IndexError`. -/
def py_index {α : Type} (l : List α) (i : Int) : Option α :=
  if 0 ≤ i then l.get? i.toNat
  else if -i ≤ (l.length : Int) then l.get? (l.length - (-i).toNat) else none

/-- Dictionary lookup: the last binding of the key wins, as in a Python dict
built by successive insertion. -/
def dict_get (d : Dict) (k : Str) : Option Str :=
  d.foldl (fun acc p => if p.1 = k then some p.2 else acc) none

/-- The message of Python's `KeyError` for a missing key (it names the key). -/
def key_error_msg (k : Str) : Str :=
  "KeyError: ".data ++ k

/-- Python's `d[key]`, raising `KeyError` when absent. -/
def dict_getitem (d : Dict) (k : Str) : Except Str Str :=
  match dict_get d k with
  | some v => .ok v
  | none => .error (key_error_msg k)

/-- The message of Python's `ValueError` raised by `int()`/`float()`. -/
def value_error_msg : Str :=
  "ValueError: invalid literal".data

/-- The message of Python's `IndexError` on list indexing. -/
def index_error_msg : Str :=
  "IndexError: list index out of range".data

/-! ### subset_vep_vcf.py — filter-expression parser

Source: `parse_expression` (lines 51-74), `LeafNode.define_operator`
(lines 105-131), `LeafNode.safe_split` (lines 133-137), `build_tree`
(lines 140-153). -/

/-- Worker for `parse_expression`: scan the expression left to right keeping
the parenthesis nesting depth (an integer, since Python lets it go
negative), and cut the string just before every `&`/`|` seen at depth 0,
so each segment after the first starts with its conjunction character. -/
def peGo : List Char → Int → List Char → List (List Char)
  | [], _, cur => [cur.reverse]
  | c :: rest, nesting, cur =>
    if c = '(' then peGo rest (nesting + 1) (c :: cur)
    else if c = ')' then peGo rest (nesting - 1) (c :: cur)
    else if (c = '&' ∨ c = '|') ∧ nesting = 0 then
      cur.reverse :: peGo rest nesting [c]
    else
      peGo rest nesting (c :: cur)

/-- Second pass of `parse_expression`: for every segment that begins with a
conjunction character (Python's `re.match('[|&]', cond)`), move that
character into the conjunction list and keep the remainder as the clause. -/
def stripConj : List Str → List Str × List Char
  | [] => ([], [])
  | cond :: rest =>
    let (cs, js) := stripConj rest
    match cond with
    | c :: tl =>
      if c = '&' ∨ c = '|' then (tl :: cs, c :: js) else ((c :: tl) :: cs, js)
    | [] => ([] :: cs, js)

/-- `parse_expression(e)`: returns the list of top-level clauses and the list
of depth-0 conjunction characters found between them. -/
def parse_expression (e : Str) : List Str × List Char :=
  stripConj (peGo e 0 [])

/-- The eight leaf comparison operators of the filter language. -/
inductive LeafOp
  | ne | notContains | notIn | notMatch | eq | contains | inOp | matchOp
  deriving DecidableEq

/-- The message of the `Non-binary expression` parse error. -/
def non_binary_msg (e : Str) : Str :=
  "Non-binary expression: \"".data ++ e ++ "\"".data

/-- The message of the `Invalid logical expression` parse error raised by
`define_operator` when no operator token occurs in the clause. -/
def invalid_expr_msg (e : Str) : Str :=
  "Invalid logical expression: \"".data ++ e
    ++ "\". Valid operators are =, !, ~, IN, CONTAINS.".data

/-- The message of the mixed-conjunction parse error raised by `build_tree`. -/
def mixed_conj_msg (e : Str) : Str :=
  "Invalid logical expression: \"".data ++ e
    ++ "\". Consider using parentheses.".data

/-- `LeafNode.safe_split`: split the clause on every occurrence of the
operator token; exactly two parts must result, and both are stripped of
surrounding whitespace. -/
def safe_split (e by_tok : Str) : Except Str (Str × Str) :=
  match split_on_seq by_tok e with
  | [l, r] => .ok (pyStrip l, pyStrip r)
  | _ => .error (non_binary_msg e)

/-- Build a leaf triple (operator, key, value) from a clause and the operator
token chosen for it, via `safe_split`. -/
def mk_leaf (op : LeafOp) (tok e : Str) : Except Str (LeafOp × Str × Str) :=
  match safe_split e tok with
  | .error m => .error m
  | .ok (k, v) => .ok (op, k, v)

/-- `LeafNode.define_operator`: test the operator tokens in the fixed order
of the source's if/elif chain (`!=`, `!CONTAINS`, `!IN`, `!~`, `=`,
`CONTAINS`, `IN`, `~`), splitting the clause on the first token in that
order that occurs anywhere in it. -/
def define_operator (e : Str) : Except Str (LeafOp × Str × Str) :=
  if pyIn "!=".data e then mk_leaf .ne "!=".data e
  else if pyIn "!CONTAINS".data e then mk_leaf .notContains "!CONTAINS".data e
  else if pyIn "!IN".data e then mk_leaf .notIn "!IN".data e
  else if pyIn "!~".data e then mk_leaf .notMatch "!~".data e
  else if pyIn "=".data e then mk_leaf .eq "=".data e
  else if pyIn "CONTAINS".data e then mk_leaf .contains "CONTAINS".data e
  else if pyIn "IN".data e then mk_leaf .inOp "IN".data e
  else if pyIn "~".data e then mk_leaf .matchOp "~".data e
  else .error (invalid_expr_msg e)

/-- The filter AST: a leaf predicate, or a stem (`StemNode`) holding a
conjunction character and its children. -/
inductive FilterTree
  | leaf (op : LeafOp) (key val : Str)
  | stem (op : Char) (children : List FilterTree)

/-- Build the children of a stem node: each clause is stripped of leading and
trailing `( )` characters and parsed recursively (`f`), the first failure
aborting, as the Python recursion does by raising. -/
def build_forest (f : Str → Except Str FilterTree) : List Str → Except Str (List FilterTree)
  | [] => .ok []
  | c :: cs =>
    match f (strip_paren_space c) with
    | .error m => .error m
    | .ok t =>
      match build_forest f cs with
      | .error m => .error m
      | .ok ts => .ok (t :: ts)

/-- `build_tree`, fuelled by the recursion depth (Python's own recursion is
bounded by its stack; one unit of fuel per nesting level is ample since
every recursive call receives a strictly shorter string).  When both `&`
and `|` occur among the depth-0 conjunctions the mixed-conjunction error is
raised; a single clause becomes a leaf; otherwise a stem node is built with
the first conjunction character (Python's `next(iter(set(conjuncts)))`,
well defined because after the mixed check all conjuncts are equal). -/
def build_tree_fuel : Nat → Str → Except Str FilterTree
  | 0, _ => .error "maximum recursion depth exceeded".data
  | n + 1, e =>
    let pr := parse_expression e
    if '&' ∈ pr.2 ∧ '|' ∈ pr.2 then .error (mixed_conj_msg e)
    else
      match pr.1 with
      | [c] =>
        match define_operator c with
        | .error m => .error m
        | .ok (op, k, v) => .ok (.leaf op k v)
      | clauses =>
        match pr.2.head? with
        | none => .error "StopIteration".data
        | some op =>
          match build_forest (build_tree_fuel n) clauses with
          | .error m => .error m
          | .ok children => .ok (.stem op children)

/-- `build_tree(expr, root)`: parse a whole filter expression. -/
def build_tree (e : Str) : Except Str FilterTree :=
  build_tree_fuel (e.length + 1) e

/-- The evaluation of one leaf predicate against an annotation map `d`
(the lambdas returned by `define_operator`); `rm` embeds `re.match`
truthiness (pattern first, subject second).  The annotation field is looked
up with Python's `d[key]`, so a missing key raises `KeyError`. -/
def leaf_eval (rm : Str → Str → Bool) (op : LeafOp) (key val : Str) (d : Dict) :
    Except Str Bool :=
  match dict_getitem d key with
  | .error m => .error m
  | .ok x =>
    match op with
    | .ne => .ok (decide (x ≠ val))
    | .notContains => .ok (decide (val ∉ split_on_char ',' x))
    | .notIn => .ok (decide (x ∉ split_on_char ',' val))
    | .notMatch => .ok (!(rm val x))
    | .eq => .ok (decide (x = val))
    | .contains => .ok (decide (val ∈ split_on_char ',' x))
    | .inOp => .ok (decide (x ∈ split_on_char ',' val))
    | .matchOp => .ok (rm val x)

/-! ### parse_vep_vcf.py — thresholds and Python 2 comparisons -/

/-- A caller-supplied GQ/DP threshold: the default `float("-inf")`, or a
finite float value (floats are rationals, embedded exactly). -/
inductive Thresh
  | ninf
  | val (q : ℚ)
  deriving DecidableEq

/-- The comparison `int(gq) < gq_threshold` of `get_genotype_for_variant`:
an exact int/float comparison; nothing is below `float("-inf")`. -/
def int_lt_thresh (n : Int) (t : Thresh) : Bool :=
  match t with
  | .ninf => false
  | .val q => decide ((n : ℚ) < q)

/-- The comparison `gq < gq_threshold` of the `count_alleles` branch of
`get_allele_frequency`, where `gq` is still the raw sub-field STRING.
Python 2 orders values of different types by type, with every number
smaller than every string, so a `str` is never `<` a float (or `-inf`):
the comparison is constantly false. -/
def py2_str_lt_thresh (_s : Str) (_t : Thresh) : Bool :=
  false

/-! ### parse_vep_vcf.py — minimal representation and variant locator -/

/-- Drop the common leading characters of two lists while both still have
more than one element, advancing the position by one per dropped pair. -/
def trimLead : Int → Str → Str → Int × Str × Str
  | p, r :: rs, a :: as =>
    if r = a ∧ rs ≠ [] ∧ as ≠ [] then trimLead (p + 1) rs as
    else (p, r :: rs, a :: as)
  | p, r, a => (p, r, a)

/-- Modelled from the spec: the function `get_minimal_representation` of the
`minimal_representation` module, which is imported by parse_vep_vcf.py but
is not under src/.  Spec section 4.1: while both allele strings have length
greater than one and their last characters are equal, drop the last
character of both (position unchanged); then, while both have length
greater than one and their first characters are equal, drop the first
character of both and increment the position.  The position argument is
the numeric 1-based genomic position. -/
def get_minimal_representation (pos : Int) (ref alt : Str) : Int × Str × Str :=
  let (_, r1, a1) := trimLead 0 ref.reverse alt.reverse
  let (p, r2, a2) := trimLead pos r1.reverse a1.reverse
  (p, r2, a2)

/-- One data line returned by the region query, viewed through the record
model: the raw `POS`, `REF` and `ALT` column strings. -/
structure VLine where
  pos : Str
  ref : Str
  alt : Str

/-- The minimal representations of all comma-separated ALT alleles of a
returned site, in ALT-list order (`seek_out_variant`, line 195). -/
def line_candidates (l : VLine) (p : Int) : List (Int × Str × Str) :=
  (split_on_char ',' l.alt).map (fun a => get_minimal_representation p l.ref a)

/-- Python's `list.index`: position of the first occurrence. -/
def index_of_target (target : Int × Str × Str) :
    List (Int × Str × Str) → Option Nat
  | [] => none
  | c :: rest =>
    if c = target then some 0 else (index_of_target target rest).map (fun i => i + 1)

/-- The scanning loop of `seek_out_variant` (lines 190-203) over the records
yielded by `read()` after `go_to` — see `scanned_lines` for which records
those are: the first record among whose candidates the target occurs wins,
and the allele number is the 1-based position of the first matching
candidate in that record's ALT list; no match anywhere gives the not-found
result (Python's `False`, embedded as `none`).  Each record's POS column
string is converted to the numeric position fed to the normalizer. -/
def seek_scan (target : Int × Str × Str) : List VLine → Except Str (Option Nat)
  | [] => .ok none
  | l :: rest =>
    match pyInt l.pos with
    | none => .error value_error_msg
    | some p =>
      match index_of_target target (line_candidates l p) with
      | some i => .ok (some (i + 1))
      | none => seek_scan target rest

/-- The decimal rendering of an integer, as Python's `str`. -/
def int_str (n : Int) : Str :=
  (toString n).data

/-- The sequence of records the `for line in self.read()` loop of
`seek_out_variant` actually visits.  `go_to` (lines 158-165) replaces the
reader's line source with the tabix output ONLY when that output is
non-empty: on empty output it returns with `self.vcf` untouched, so the
reader keeps consuming the remainder of the main file.  And `go_to` never
touches `self.line`/`self.fields`, while `read()` (lines 130-144) yields
the reader's current record BEFORE advancing — so the stale pre-fetch
current record is scanned first in either case. -/
def scanned_lines (current : VLine) (region_result main_rest : List VLine) :
    List VLine :=
  match region_result with
  | [] => current :: main_rest
  | ls => current :: ls

/-- `seek_out_variant` (lines 182-203): compute the leeway as the larger
allele length, query the region `chrom:pos-leeway-pos+leeway` through the
external tabix collaborator `fetch`, and scan — in the order `read()`
yields them, see `scanned_lines` — the stale current record (`current`)
followed by the returned lines, or by the remaining main-file records
(`main_rest`) when the region result is empty, for the minimal
representation of the query. -/
def seek_out_variant (fetch : Str → List VLine) (current : VLine)
    (main_rest : List VLine) (chrom : Str) (pos : Int) (ref alt : Str) :
    Except Str (Option Nat) :=
  let leeway : Int := max (ref.length : Int) (alt.length : Int)
  let target := get_minimal_representation pos ref alt
  let region :=
    chrom ++ ":".data ++ int_str (pos - leeway) ++ "-".data ++ int_str (pos + leeway)
  seek_scan target (scanned_lines current (fetch region) main_rest)

/-! ### parse_vep_vcf.py — genotype classification -/

/-- The genotype classes of `get_genotype_for_variant`. -/
inductive GClass
  | homRef | het | homAlt
  deriving DecidableEq

/-- Index of a key in the FORMAT column list, via the dict built by
`dict(zip(format_string, range(len(format_string))))`: the last occurrence
of the key wins. -/
def dict_index (fmt : List Str) (k : Str) : Option Nat :=
  (List.range fmt.length).foldl
    (fun acc i => if List.get? fmt i = some k then some i else acc) none

/-- `sample_info.split(':')[self.format[k]]`: extract one FORMAT sub-field of
a sample column; a missing key raises `KeyError`, an out-of-range position
raises `IndexError`. -/
def extract (fmt : List Str) (info : Str) (k : Str) : Except Str Str :=
  match dict_index fmt k with
  | none => .error (key_error_msg k)
  | some i =>
    match List.get? (split_on_char ':' info) i with
    | none => .error index_error_msg
    | some v => .ok v

/-- The genotype separators of `re.split('/|\|', gt)`. -/
def gt_sep (c : Char) : Bool :=
  c == '/' || c == '|'

/-- The per-sample body of the loop of `get_genotype_for_variant`
(lines 221-243).  The result is `none` when the sample lands in no set
(non-call, missing or filtered GQ/DP, or an allele count other than
0, 1, 2 — the if/elif chain has no else branch), and `some c` when it is
placed in one of the three sets. -/
def classify_sample (fmt : List Str) (info : Str) (an : Int) (gqT dpT : Thresh) :
    Except Str (Option GClass) :=
  match extract fmt info "GT".data with
  | .error m => .error m
  | .ok gt =>
    if gt = "./.".data then .ok none
    else
      match extract fmt info "GQ".data with
      | .error m => .error m
      | .ok gq =>
        match extract fmt info "DP".data with
        | .error m => .error m
        | .ok dp =>
          if gq = ".".data ∨ dp = ".".data then .ok none
          else
            match pyInt gq with
            | none => .error value_error_msg
            | some gqv =>
              if int_lt_thresh gqv gqT then .ok none
              else
                match pyInt dp with
                | none => .error value_error_msg
                | some dpv =>
                  if int_lt_thresh dpv dpT then .ok none
                  else
                    match List.mapM pyInt (split_on_pred gt_sep gt) with
                    | none => .error value_error_msg
                    | some avals =>
                      let lofs := (avals.filter (fun a => a = an)).length
                      if lofs = 0 then .ok (some .homRef)
                      else if lofs = 1 then .ok (some .het)
                      else if lofs = 2 then .ok (some .homAlt)
                      else .ok none

/-- The whole sample loop of `get_genotype_for_variant`: build the three
sets (hom-ref, het, hom-alt) of sample names; the first exception aborts
the run. -/
def genotype_loop (fmt : List Str) (an : Int) (gqT dpT : Thresh) :
    List (Str × Str) → Except Str (List Str × List Str × List Str)
  | [] => .ok ([], [], [])
  | (name, info) :: rest =>
    match classify_sample fmt info an gqT dpT with
    | .error m => .error m
    | .ok c =>
      match genotype_loop fmt an gqT dpT rest with
      | .error m => .error m
      | .ok (hr, he, ha) =>
        match c with
        | none => .ok (hr, he, ha)
        | some .homRef => .ok (name :: hr, he, ha)
        | some .het => .ok (hr, name :: he, ha)
        | some .homAlt => .ok (hr, he, name :: ha)

/-- `get_genotype_for_variant` (lines 208-244): locate the allele through
`seek_out_variant`; an unlocated allele yields the not-found signal
(Python's `return False`, embedded as `none`); missing sample names or
FORMAT raise; otherwise classify every sample. -/
def get_genotype_for_variant (fetch : Str → List VLine) (current : VLine)
    (main_rest : List VLine) (fmt : List Str)
    (samples : List (Str × Str)) (chrom : Str) (pos : Int) (ref alt : Str)
    (gqT dpT : Thresh) :
    Except Str (Option (List Str × List Str × List Str)) :=
  match seek_out_variant fetch current main_rest chrom pos ref alt with
  | .error m => .error m
  | .ok none => .ok none
  | .ok (some an) =>
    if samples = [] ∨ fmt = [] then
      .error "Unable to parse individual genotypes. Fields missing.".data
    else
      match genotype_loop fmt (an : Int) gqT dpT samples with
      | .error m => .error m
      | .ok sets => .ok (some sets)

/-! ### parse_vep_vcf.py — allele frequency -/

/-- The reader state consulted by `get_allele_frequency`: the parsed INFO
map (`None` when the column is absent or `.`), the FORMAT column list, and
the named sample columns. -/
structure ReaderState where
  info_field : Option Dict
  fmt : List Str
  samples : List (Str × Str)

/-- The final ratio step of the `query_info` branch: `float(an)` is computed
first; a zero total returns the undefined result `None` rather than
raising; otherwise `float(ac)/float(an)`. -/
def af_quotient (ac an : Str) : Except Str (Option ℚ) :=
  match pyFloatQ an with
  | none => .error value_error_msg
  | some anv =>
    if anv = 0 then .ok none
    else
      match pyFloatQ ac with
      | none => .error value_error_msg
      | some acv => .ok (some (acv / anv))

/-- The per-sample body of the `count_alleles` branch (lines 276-292): skip
the `./.` non-call; compare the RAW GQ/DP strings against the thresholds
(the source never converts them with `int`, so under Python 2 the filter
never triggers — see `py2_str_lt_thresh` — and the `.` sentinel is never
checked); then count, over the split genotype, the alleles equal to
`str(allele_num)` into AC and the alleles other than `.` into AN. -/
def count_alleles_sample (fmt : List Str) (info : Str) (allele_num : Int)
    (gqT dpT : Thresh) : Except Str (Nat × Nat) :=
  match extract fmt info "GT".data with
  | .error m => .error m
  | .ok gt =>
    if gt = "./.".data then .ok (0, 0)
    else
      match extract fmt info "GQ".data with
      | .error m => .error m
      | .ok gq =>
        match extract fmt info "DP".data with
        | .error m => .error m
        | .ok dp =>
          if py2_str_lt_thresh gq gqT || py2_str_lt_thresh dp dpT then .ok (0, 0)
          else
            let alleles := split_on_pred gt_sep gt
            .ok ((alleles.filter (fun a => a = int_str allele_num)).length,
                 (alleles.filter (fun a => a ≠ ".".data)).length)

/-- `get_allele_frequency` (lines 247-297).  `query_info` mode reads the
allele count and total from the INFO map, preferring `AC_Adj`/`AN_Adj`
over `AC`/`AN` (membership test then item access, as in the source),
comma-splits the count and indexes it at `allele_num - 1`; a zero total
gives the undefined result.  `count_alleles` mode tallies AC/AN over the
samples.  Any other mode raises (the source's message keeps a literal
`%s`: the format operator is missing). -/
def get_allele_frequency (st : ReaderState) (allele_num : Int) (mode : Str)
    (gqT dpT : Thresh) : Except Str (Option ℚ) :=
  if mode = "query_info".data then
    let allele_idx : Int := allele_num - 1
    match st.info_field with
    | none => .error "Unable to parse INFO field because it doesn't exist.".data
    | some d =>
      if d = [] then
        .error "Unable to parse INFO field because it doesn't exist.".data
      else
        match dict_get d "AC_Adj".data with
        | some acstr =>
          match py_index (split_on_char ',' acstr) allele_idx with
          | none => .error index_error_msg
          | some ac =>
            match dict_get d "AN_Adj".data with
            | none => .error (key_error_msg "AN_Adj".data)
            | some an => af_quotient ac an
        | none =>
          match dict_get d "AC".data with
          | some acstr =>
            match py_index (split_on_char ',' acstr) allele_idx with
            | none => .error index_error_msg
            | some ac =>
              match dict_get d "AN".data with
              | none => .error (key_error_msg "AN".data)
              | some an => af_quotient ac an
          | none => .error "Exception".data
  else if mode = "count_alleles".data then
    if st.fmt = [] ∧ st.samples = [] then
      .error "Unable to parse individual genotypes. Check formatting.".data
    else
      match List.mapM (fun s => count_alleles_sample st.fmt s.2 allele_num gqT dpT)
          st.samples with
      | .error m => .error m
      | .ok pairs =>
        let ac := (pairs.map Prod.fst).sum
        let an := (pairs.map Prod.snd).sum
        if an = 0 then .ok none else .ok (some ((ac : ℚ) / (an : ℚ)))
  else
    .error "Improper mode %s given to get_allele_frequency function.".data

/-! ### subset_vep_vcf.py — site selection loop -/

/-- `check_gene` (lines 31-37): with no gene list everything passes; an HGNC
list tests the `SYMBOL` field, an ENSG list the `Gene` field (field access
through `d[key]`, so a missing field raises `KeyError`). -/
def check_gene (a : Dict) (hgnc ensg : List Str) : Except Str Bool :=
  if hgnc = [] ∧ ensg = [] then .ok true
  else if hgnc ≠ [] then
    match dict_getitem a "SYMBOL".data with
    | .error m => .error m
    | .ok v => .ok (decide (v ∈ hgnc))
  else
    match dict_getitem a "Gene".data with
    | .error m => .error m
    | .ok v => .ok (decide (v ∈ ensg))

/-- One record of the site-selection loop: the raw line (re-emitted verbatim
on acceptance) and the parsed annotation list (`None` when no CSQ entry
survived or the INFO column was absent). -/
structure SiteRec where
  line : Str
  anns : Option (List Dict)

/-- The inner annotation loop of `subset` (lines 23-28): scan the
annotations in order; the first one satisfying the filter AND the gene
predicate accepts the site (the `break` stops the scan); the gene check is
only evaluated when the filter holds. -/
def site_filter (evalT : Dict → Except Str Bool) (hgnc ensg : List Str) :
    List Dict → Except Str Bool
  | [] => .ok false
  | a :: rest =>
    match evalT a with
    | .error m => .error m
    | .ok false => site_filter evalT hgnc ensg rest
    | .ok true =>
      match check_gene a hgnc ensg with
      | .error m => .error m
      | .ok true => .ok true
      | .ok false => site_filter evalT hgnc ensg rest

/-- Processing of one site by `subset`: a record whose annotation list is
absent or empty (`if not site.annotations`) raises immediately; otherwise
the annotation loop decides acceptance. -/
def proc_site (evalT : Dict → Except Str Bool) (hgnc ensg : List Str)
    (s : SiteRec) : Except Str Bool :=
  match s.anns with
  | none => .error "No VEP annotations found.".data
  | some [] => .error "No VEP annotations found.".data
  | some l => site_filter evalT hgnc ensg l

/-- The site-selection loop of `subset` (lines 20-28) over the records of
the input VCF: emits the line of every accepted site, at most once per
record, and aborts the whole run on the first exception. -/
def subset (evalT : Dict → Except Str Bool) (hgnc ensg : List Str) :
    List SiteRec → Except Str (List Str)
  | [] => .ok []
  | s :: rest =>
    match proc_site evalT hgnc ensg s with
    | .error m => .error m
    | .ok b =>
      match subset evalT hgnc ensg rest with
      | .error m => .error m
      | .ok out => .ok (if b then s.line :: out else out)

/-! ### Spec-side definitions for comparison (refinement claims) -/

/-- The operator table in the priority order of the source's if/elif chain. -/
def op_table : List (LeafOp × Str) :=
  [(.ne, "!=".data), (.notContains, "!CONTAINS".data), (.notIn, "!IN".data),
   (.notMatch, "!~".data), (.eq, "=".data), (.contains, "CONTAINS".data),
   (.inOp, "IN".data), (.matchOp, "~".data)]

/-- The first operator of the table that occurs anywhere in the clause. -/
def find_op : List (LeafOp × Str) → Str → Option (LeafOp × Str)
  | [], _ => none
  | p :: rest, e => if pyIn p.2 e then some p else find_op rest e

/-- The operator tokens ordered for matching at one position, negated forms
and longer tokens first, following the spec's longest-match wording. -/
def spec_pos_tokens : List (LeafOp × Str) :=
  [(.notContains, "!CONTAINS".data), (.notIn, "!IN".data), (.ne, "!=".data),
   (.notMatch, "!~".data), (.contains, "CONTAINS".data), (.inOp, "IN".data),
   (.eq, "=".data), (.matchOp, "~".data)]

/-- Worker for `spec_leaf_split`: the first argument accumulates the scanned
prefix in reverse. -/
def spec_scan : Str → Str → Option (LeafOp × Str × Str)
  | _, [] => none
  | acc, c :: rest =>
    match spec_pos_tokens.find? (fun p => starts_with p.2 (c :: rest)) with
    | some (op, tok) =>
      some (op, pyStrip acc.reverse, pyStrip (List.drop tok.length (c :: rest)))
    | none => spec_scan (c :: acc) rest

/-- This definition follows the SPEC's words, for comparison with the
source's `define_operator`: locate the first occurrence of a recognized
operator token in the clause (scanning left to right, longest and negated
forms matched first at each position) and split the clause there into a
key and a value, both trimmed of surrounding whitespace. -/
def spec_leaf_split (e : Str) : Option (LeafOp × Str × Str) :=
  spec_scan [] e

/-! ### Helper lemmas -/

theorem starts_with_append (s t : Str) : starts_with s (s ++ t) = true := by
  induction s with
  | nil => rfl
  | cons a as ih => simp [starts_with, ih]

/-- A string that is spliced into the middle of another is found by the
substring test. -/
theorem pyIn_append_mid (pre sub suf : Str) : pyIn sub (pre ++ sub ++ suf) = true := by
  unfold pyIn
  rw [List.any_eq_true]
  refine ⟨pre.length, ?_, ?_⟩
  · rw [List.mem_range]
    simp [List.length_append]
    omega
  · rw [List.append_assoc, List.drop_left]
    exact starts_with_append sub suf

theorem pyIn_append_right (pre sub : Str) : pyIn sub (pre ++ sub) = true := by
  have h := pyIn_append_mid pre sub []
  rwa [List.append_nil] at h

/-! ### Claims -/

/-- C1 (counterexample): parsing the empty filter-expression string does NOT
succeed: `build_tree` on `""` fails, so no always-true pass-through leaf is
produced. -/
theorem C1_counterexample : (build_tree "".data).isOk = false := rfl

/-- C1 (amended): for the empty filter-expression string, `build_tree` raises
the `Invalid logical expression` parse error — the single clause produced
by the empty string contains no recognized operator token — so there is no
"no filter" pass-through mode and evaluation never takes place. -/
theorem C1_empty_expression_raises :
    build_tree "".data = .error (invalid_expr_msg "".data) := rfl

/-- C3 (counterexample): the leaf builder does not locate the first
occurrence of an operator token in the clause.  On the clause `A~B=C` the
first occurrence (with longest match) is the `~` at position 1, giving key
`A` and value `B=C`, but `define_operator` splits on `=` — tested earlier
in its if/elif chain — giving key `A~B` and value `C`. -/
theorem C3_counterexample :
    define_operator "A~B=C".data = .ok (.eq, "A~B".data, "C".data) ∧
    spec_leaf_split "A~B=C".data = some (.matchOp, "A".data, "B=C".data) ∧
    ((LeafOp.eq, "A~B".data, "C".data) ≠
      ((LeafOp.matchOp, "A".data, "B=C".data) : LeafOp × Str × Str)) :=
  ⟨rfl, rfl, by decide⟩

/-- C3 (amended): for every clause containing at least one recognized
operator token, the operator is selected by testing the tokens in the
fixed priority order `!=`, `!CONTAINS`, `!IN`, `!~`, `=`, `CONTAINS`,
`IN`, `~` — the first token in that order occurring anywhere in the clause
wins — and the clause is split on every occurrence of that token; the
split must yield exactly two parts, which become the key and the value
after trimming surrounding whitespace. -/
theorem C3_priority_order_split :
    (∀ e op tok, find_op op_table e = some (op, tok) →
      define_operator e = mk_leaf op tok e) ∧
    (∀ e tok l r, split_on_seq tok e = [l, r] →
      safe_split e tok = .ok (pyStrip l, pyStrip r)) := by
  constructor
  · intro e op tok h
    simp only [op_table, find_op] at h
    unfold define_operator
    split_ifs at h ⊢ <;> simp_all
  · intro e tok l r h
    simp [safe_split, h]

theorem C3_witness :
    define_operator "A = B".data = mk_leaf .eq "=".data "A = B".data ∧
    safe_split "A = B".data "=".data = .ok ("A".data, "B".data) := by
  constructor
  · exact C3_priority_order_split.1 "A = B".data .eq "=".data rfl
  · exact C3_priority_order_split.2 "A = B".data "=".data "A ".data " B".data rfl

/-- C4: an expression whose depth-0 clauses mix `&` and `|` is rejected by
`build_tree` with a parse error whose message embeds the full offending
substring (and hence both conjunction operators); the concrete example
`A=1 & B=2 | C=3` fails with that message, while the grouped form
`A=1 & (B=2 | C=3)` parses successfully. -/
theorem C4_mixed_conjunction_rejection :
    (∀ e : Str, '&' ∈ (parse_expression e).2 → '|' ∈ (parse_expression e).2 →
      build_tree e = .error (mixed_conj_msg e) ∧ pyIn e (mixed_conj_msg e) = true) ∧
    build_tree "A=1 & B=2 | C=3".data =
      .error (mixed_conj_msg "A=1 & B=2 | C=3".data) ∧
    (pyIn "&".data (mixed_conj_msg "A=1 & B=2 | C=3".data) = true ∧
     pyIn "|".data (mixed_conj_msg "A=1 & B=2 | C=3".data) = true) ∧
    (build_tree "A=1 & (B=2 | C=3)".data).isOk = true := by
  refine ⟨?_, rfl, ⟨rfl, rfl⟩, rfl⟩
  intro e h1 h2
  constructor
  · simp only [build_tree, build_tree_fuel]
    rw [if_pos ⟨h1, h2⟩]
  · exact pyIn_append_mid _ e _

theorem C4_witness :
    build_tree "X=1 | Y=2 & Z=3".data =
      .error (mixed_conj_msg "X=1 | Y=2 & Z=3".data) ∧
    pyIn "X=1 | Y=2 & Z=3".data
      (mixed_conj_msg "X=1 | Y=2 & Z=3".data) = true :=
  C4_mixed_conjunction_rejection.1 "X=1 | Y=2 & Z=3".data (by decide) (by decide)

/-- C8: evaluating any leaf predicate against an annotation map that lacks
the leaf's field key fails with the `KeyError` naming the missing key —
the message contains the key as a substring — and never silently
evaluates to false. -/
theorem C8_missing_key_error :
    ∀ (rm : Str → Str → Bool) (op : LeafOp) (key val : Str) (d : Dict),
      dict_get d key = none →
      leaf_eval rm op key val d = .error (key_error_msg key) ∧
      pyIn key (key_error_msg key) = true := by
  intro rm op key val d h
  constructor
  · simp [leaf_eval, dict_getitem, h]
  · exact pyIn_append_right _ key

theorem C8_witness :
    leaf_eval (fun _ _ => true) .eq "SYMBOL".data "X".data [] =
      .error (key_error_msg "SYMBOL".data) ∧
    pyIn "SYMBOL".data (key_error_msg "SYMBOL".data) = true :=
  C8_missing_key_error (fun _ _ => true) .eq "SYMBOL".data "X".data [] rfl

/-- C9: whenever the annotation map contains the key, the `!CONTAINS` leaf is
the boolean complement of the `CONTAINS` leaf on the same key, value and
map. -/
theorem C9_not_contains_complement :
    ∀ (rm : Str → Str → Bool) (key val : Str) (d : Dict) (x : Str),
      dict_get d key = some x →
      leaf_eval rm .notContains key val d =
        (leaf_eval rm .contains key val d).map (fun b => !b) := by
  intro rm key val d x h
  simp [leaf_eval, dict_getitem, h, Except.map, decide_not]

theorem C9_witness :
    leaf_eval (fun _ _ => true) .notContains "k".data "v".data
        [("k".data, "a,v".data)] =
      (leaf_eval (fun _ _ => true) .contains "k".data "v".data
        [("k".data, "a,v".data)]).map (fun b => !b) :=
  C9_not_contains_complement (fun _ _ => true) "k".data "v".data
    [("k".data, "a,v".data)] "a,v".data rfl

/-- Every sample name placed in one of the three genotype sets was classified
into it: membership comes from some sample entry of that name whose
classification produced that class. -/
theorem genotype_loop_mem (fmt : List Str) (an : Int) (gqT dpT : Thresh) :
    ∀ (samples : List (Str × Str)) (hr he ha : List Str),
      genotype_loop fmt an gqT dpT samples = .ok (hr, he, ha) →
      ∀ name, name ∈ hr ∨ name ∈ he ∨ name ∈ ha →
        ∃ info c, (name, info) ∈ samples ∧
          classify_sample fmt info an gqT dpT = .ok (some c) := by
  intro samples
  induction samples with
  | nil =>
    intro hr he ha h name hm
    simp only [genotype_loop] at h
    obtain ⟨h1, h2, h3⟩ : ([] : List Str) = hr ∧ ([] : List Str) = he ∧
        ([] : List Str) = ha := by
      cases h
      exact ⟨rfl, rfl, rfl⟩
    subst h1; subst h2; subst h3
    simp at hm
  | cons s rest ih =>
    obtain ⟨nm, info⟩ := s
    intro hr he ha h name hm
    simp only [genotype_loop] at h
    cases hc : classify_sample fmt info an gqT dpT with
    | error m => rw [hc] at h; cases h
    | ok c =>
      rw [hc] at h
      cases hrest : genotype_loop fmt an gqT dpT rest with
      | error m => rw [hrest] at h; cases h
      | ok t =>
        obtain ⟨hr0, he0, ha0⟩ := t
        rw [hrest] at h
        cases c with
        | none =>
          obtain ⟨h1, h2, h3⟩ : hr0 = hr ∧ he0 = he ∧ ha0 = ha := by
            cases h; exact ⟨rfl, rfl, rfl⟩
          subst h1; subst h2; subst h3
          obtain ⟨i, c, hmem, hcl⟩ := ih hr0 he0 ha0 hrest name hm
          exact ⟨i, c, List.mem_cons_of_mem _ hmem, hcl⟩
        | some g =>
          cases g with
          | homRef =>
            obtain ⟨h1, h2, h3⟩ : nm :: hr0 = hr ∧ he0 = he ∧ ha0 = ha := by
              cases h; exact ⟨rfl, rfl, rfl⟩
            subst h1; subst h2; subst h3
            rcases hm with hm | hm | hm
            · rcases List.mem_cons.mp hm with hm | hm
              · exact ⟨info, .homRef, by simp [hm], hc⟩
              · obtain ⟨i, c, hmem, hcl⟩ := ih hr0 he0 ha0 hrest name (Or.inl hm)
                exact ⟨i, c, List.mem_cons_of_mem _ hmem, hcl⟩
            · obtain ⟨i, c, hmem, hcl⟩ := ih hr0 he0 ha0 hrest name (Or.inr (Or.inl hm))
              exact ⟨i, c, List.mem_cons_of_mem _ hmem, hcl⟩
            · obtain ⟨i, c, hmem, hcl⟩ := ih hr0 he0 ha0 hrest name (Or.inr (Or.inr hm))
              exact ⟨i, c, List.mem_cons_of_mem _ hmem, hcl⟩
          | het =>
            obtain ⟨h1, h2, h3⟩ : hr0 = hr ∧ nm :: he0 = he ∧ ha0 = ha := by
              cases h; exact ⟨rfl, rfl, rfl⟩
            subst h1; subst h2; subst h3
            rcases hm with hm | hm | hm
            · obtain ⟨i, c, hmem, hcl⟩ := ih hr0 he0 ha0 hrest name (Or.inl hm)
              exact ⟨i, c, List.mem_cons_of_mem _ hmem, hcl⟩
            · rcases List.mem_cons.mp hm with hm | hm
              · exact ⟨info, .het, by simp [hm], hc⟩
              · obtain ⟨i, c, hmem, hcl⟩ := ih hr0 he0 ha0 hrest name (Or.inr (Or.inl hm))
                exact ⟨i, c, List.mem_cons_of_mem _ hmem, hcl⟩
            · obtain ⟨i, c, hmem, hcl⟩ := ih hr0 he0 ha0 hrest name (Or.inr (Or.inr hm))
              exact ⟨i, c, List.mem_cons_of_mem _ hmem, hcl⟩
          | homAlt =>
            obtain ⟨h1, h2, h3⟩ : hr0 = hr ∧ he0 = he ∧ nm :: ha0 = ha := by
              cases h; exact ⟨rfl, rfl, rfl⟩
            subst h1; subst h2; subst h3
            rcases hm with hm | hm | hm
            · obtain ⟨i, c, hmem, hcl⟩ := ih hr0 he0 ha0 hrest name (Or.inl hm)
              exact ⟨i, c, List.mem_cons_of_mem _ hmem, hcl⟩
            · obtain ⟨i, c, hmem, hcl⟩ := ih hr0 he0 ha0 hrest name (Or.inr (Or.inl hm))
              exact ⟨i, c, List.mem_cons_of_mem _ hmem, hcl⟩
            · rcases List.mem_cons.mp hm with hm | hm
              · exact ⟨info, .homAlt, by simp [hm], hc⟩
              · obtain ⟨i, c, hmem, hcl⟩ := ih hr0 he0 ha0 hrest name (Or.inr (Or.inr hm))
                exact ⟨i, c, List.mem_cons_of_mem _ hmem, hcl⟩

/-- C2 (counterexample): a sample whose called-allele count is neither 0, 1
nor 2 is NOT reported as malformed: the triploid genotype `1/1/1` passes
every check, matches the allele three times, and the loop finishes without
an exception leaving the sample in none of the three sets. -/
theorem C2_counterexample :
    genotype_loop ["GT".data, "GQ".data, "DP".data] 1 .ninf .ninf
        [("S1".data, "1/1/1:50:50".data)] = .ok ([], [], []) := rfl

/-- C2 (amended): for every sample passing the no-call, missing-value and
GQ/DP threshold checks, the number of called alleles equal to the allele
index determines classification — 0 hom-ref, 1 het, 2 hom-alt — while any
other count silently leaves the sample in none of the three sets (the
if/elif chain has no else branch, so nothing is reported); a sample whose
genotype is `./.` is likewise placed in no set, and a name all of whose
sample entries classify to no set appears in none of the three returned
sets. -/
theorem C2_genotype_classification :
    (∀ (fmt : List Str) (info : Str) (an : Int) (gqT dpT : Thresh)
        (gt gq dp : Str) (gqv dpv : Int) (avals : List Int),
      extract fmt info "GT".data = .ok gt → gt ≠ "./.".data →
      extract fmt info "GQ".data = .ok gq →
      extract fmt info "DP".data = .ok dp →
      gq ≠ ".".data → dp ≠ ".".data →
      pyInt gq = some gqv → pyInt dp = some dpv →
      int_lt_thresh gqv gqT = false → int_lt_thresh dpv dpT = false →
      List.mapM pyInt (split_on_pred gt_sep gt) = some avals →
      classify_sample fmt info an gqT dpT = .ok
        (if (avals.filter (fun a => a = an)).length = 0 then some .homRef
         else if (avals.filter (fun a => a = an)).length = 1 then some .het
         else if (avals.filter (fun a => a = an)).length = 2 then some .homAlt
         else none)) ∧
    (∀ (fmt : List Str) (info : Str) (an : Int) (gqT dpT : Thresh),
      extract fmt info "GT".data = .ok "./.".data →
      classify_sample fmt info an gqT dpT = .ok none) ∧
    (∀ (fmt : List Str) (an : Int) (gqT dpT : Thresh)
        (samples : List (Str × Str)) (hr he ha : List Str) (name : Str),
      genotype_loop fmt an gqT dpT samples = .ok (hr, he, ha) →
      (∀ info, (name, info) ∈ samples →
        classify_sample fmt info an gqT dpT = .ok none) →
      name ∉ hr ∧ name ∉ he ∧ name ∉ ha) := by
  refine ⟨?_, ?_, ?_⟩
  · intro fmt info an gqT dpT gt gq dp gqv dpv avals
      hgt hne hgq hdp hq1 hq2 hiq hid ht1 ht2 hmap
    have hmap2 : List.mapM.loop pyInt (split_on_pred gt_sep gt) [] = some avals := hmap
    simp [classify_sample, hgt, hne, hgq, hdp, hq1, hq2, hiq, hid, ht1, ht2, hmap2]
    split_ifs <;> rfl
  · intro fmt info an gqT dpT hgt
    simp [classify_sample, hgt]
  · intro fmt an gqT dpT samples hr he ha name h hnone
    refine ⟨?_, ?_, ?_⟩ <;> intro hm
    · obtain ⟨info, c, hmem, hcl⟩ :=
        genotype_loop_mem fmt an gqT dpT samples hr he ha h name (Or.inl hm)
      rw [hnone info hmem] at hcl
      cases hcl
    · obtain ⟨info, c, hmem, hcl⟩ :=
        genotype_loop_mem fmt an gqT dpT samples hr he ha h name (Or.inr (Or.inl hm))
      rw [hnone info hmem] at hcl
      cases hcl
    · obtain ⟨info, c, hmem, hcl⟩ :=
        genotype_loop_mem fmt an gqT dpT samples hr he ha h name (Or.inr (Or.inr hm))
      rw [hnone info hmem] at hcl
      cases hcl

theorem C2_witness :
    classify_sample ["GT".data, "GQ".data, "DP".data] "0/1:50:50".data 1
        .ninf .ninf = .ok (some .het) ∧
    classify_sample ["GT".data, "GQ".data, "DP".data] "1/1:50:50".data 1
        .ninf .ninf = .ok (some .homAlt) ∧
    classify_sample ["GT".data, "GQ".data, "DP".data] "./.:50:50".data 1
        .ninf .ninf = .ok none ∧
    ("S".data ∉ ([] : List Str) ∧ "S".data ∉ ([] : List Str) ∧
     "S".data ∉ ([] : List Str)) := by
  refine ⟨?_, ?_, ?_, ?_⟩
  · exact C2_genotype_classification.1 _ "0/1:50:50".data 1 .ninf .ninf
      "0/1".data "50".data "50".data 50 50 [0, 1]
      rfl (by decide) rfl rfl (by decide) (by decide) rfl rfl rfl rfl rfl
  · exact C2_genotype_classification.1 _ "1/1:50:50".data 1 .ninf .ninf
      "1/1".data "50".data "50".data 50 50 [1, 1]
      rfl (by decide) rfl rfl (by decide) (by decide) rfl rfl rfl rfl rfl
  · exact C2_genotype_classification.2.1 _ "./.:50:50".data 1 .ninf .ninf rfl
  · exact C2_genotype_classification.2.2 ["GT".data, "GQ".data, "DP".data] 1
      .ninf .ninf [("S".data, "./.:50:50".data)] [] [] [] "S".data rfl
      (by intro info hi; simp at hi; subst hi; rfl)

/-- C5: the `count_alleles` branch does NOT apply the QC thresholds of the
per-sample genotype classification.  For the sample `0/1:10:10` under
GQ/DP thresholds of 20, the classification loop excludes the sample
(`int(gq) < 20`), but `count_alleles` — which compares the raw GQ/DP
strings against the float threshold, a comparison that is always false in
Python 2, and never tests the `.` sentinel — counts one matching allele
and two called alleles, yielding the frequency 1/2; likewise a sample
whose GQ/DP are the missing sentinel `.` is fully counted. -/
theorem C5_qc_divergence :
    classify_sample ["GT".data, "GQ".data, "DP".data] "0/1:10:10".data 1
        (.val 20) (.val 20) = .ok none ∧
    count_alleles_sample ["GT".data, "GQ".data, "DP".data] "0/1:10:10".data 1
        (.val 20) (.val 20) = .ok (1, 2) ∧
    classify_sample ["GT".data, "GQ".data, "DP".data] "0/1:.:.".data 1
        .ninf .ninf = .ok none ∧
    count_alleles_sample ["GT".data, "GQ".data, "DP".data] "0/1:.:.".data 1
        .ninf .ninf = .ok (1, 2) ∧
    get_allele_frequency ⟨none, ["GT".data, "GQ".data, "DP".data],
        [("S".data, "0/1:10:10".data)]⟩ 1 "count_alleles".data
        (.val 20) (.val 20) = .ok (some (1 / 2)) :=
  ⟨rfl, rfl, rfl, rfl, rfl⟩

/-- C6: `query_info` mode reads the allele count and total from the INFO
map, preferring `AC_Adj`/`AN_Adj` over `AC`/`AN` when present; the count
field is comma-split and indexed at `allele_num - 1` (1-based selection);
a zero total yields the distinguished undefined result `none` instead of
an exception; and `AC="3,0"`, `AN="10"`, allele number 1 gives 3/10. -/
theorem C6_query_info :
    (∀ (st : ReaderState) (d : Dict) (n : Int) (acs ans ac : Str)
        (gqT dpT : Thresh),
      st.info_field = some d → d ≠ [] →
      dict_get d "AC_Adj".data = some acs →
      dict_get d "AN_Adj".data = some ans →
      py_index (split_on_char ',' acs) (n - 1) = some ac →
      get_allele_frequency st n "query_info".data gqT dpT = af_quotient ac ans) ∧
    (∀ (st : ReaderState) (d : Dict) (n : Int) (acs ans ac : Str)
        (gqT dpT : Thresh),
      st.info_field = some d → d ≠ [] →
      dict_get d "AC_Adj".data = none →
      dict_get d "AC".data = some acs →
      dict_get d "AN".data = some ans →
      py_index (split_on_char ',' acs) (n - 1) = some ac →
      get_allele_frequency st n "query_info".data gqT dpT = af_quotient ac ans) ∧
    (∀ (ac an : Str) (anv : ℚ), pyFloatQ an = some anv → anv = 0 →
      af_quotient ac an = .ok none) ∧
    get_allele_frequency ⟨some [("AC".data, "3,0".data), ("AN".data, "10".data)],
        [], []⟩ 1 "query_info".data .ninf .ninf = .ok (some (3 / 10)) ∧
    get_allele_frequency ⟨some [("AC".data, "3".data), ("AN".data, "0".data)],
        [], []⟩ 1 "query_info".data .ninf .ninf = .ok none := by
  refine ⟨?_, ?_, ?_, rfl, rfl⟩
  · intro st d n acs ans ac gqT dpT h1 h2 h3 h4 h5
    simp [get_allele_frequency, h1, h2, h3, h4, h5]
  · intro st d n acs ans ac gqT dpT h1 h2 h3 h4 h5 h6
    simp [get_allele_frequency, h1, h2, h3, h4, h5, h6]
  · intro ac an anv h1 h2
    subst h2
    simp [af_quotient, h1]

theorem C6_witness :
    get_allele_frequency ⟨some [("AC_Adj".data, "7,1".data),
        ("AN_Adj".data, "14".data), ("AC".data, "9".data), ("AN".data, "9".data)],
        [], []⟩ 1 "query_info".data .ninf .ninf = af_quotient "7".data "14".data :=
  C6_query_info.1 _ _ 1 "7,1".data "14".data "7".data .ninf .ninf
    rfl (by decide) rfl rfl rfl

/-- C7 (counterexample): the scan is NOT confined to the returned sites.
First run: the only returned site (`100 A G`) has no candidate matching
the query `100 A C`, yet `seek_out_variant` returns allele number 1 — the
match comes from the reader's stale pre-fetch current record, which
`read()` yields before the region lines.  Second run: the region query
returns no sites at all (so certainly no returned-site candidate matches),
yet the locator returns allele number 2: `go_to` left the reader's line
source untouched, and the match comes from a remaining main-file record.
The claim's not-found direction therefore fails on the code. -/
theorem C7_counterexample :
    seek_out_variant (fun _ => [⟨"100".data, "A".data, "G".data⟩])
        ⟨"100".data, "A".data, "C".data⟩ [] "1".data 100 "A".data "C".data =
      .ok (some 1) ∧
    seek_out_variant (fun _ => []) ⟨"99".data, "G".data, "T".data⟩
        [⟨"100".data, "A".data, "T,C".data⟩] "1".data 100 "A".data "C".data =
      .ok (some 2) :=
  ⟨rfl, rfl⟩

/-- C7 (amended): `seek_out_variant` queries the region from `pos - leeway`
to `pos + leeway` with `leeway = max(len(ref), len(alt))`, but the records
scanned are the reader's stale current record followed by the returned
lines — or by the remaining main-file records when the region result is
empty (`go_to` does not advance the reader and leaves its line source
untouched on empty tabix output).  Over that scanned sequence, the first
record among whose minimal-representation candidates the query's minimal
representation occurs wins, the result being the 1-based position of the
first matching candidate within that record's comma-split ALT list; the
not-found sentinel is returned exactly when no scanned record matches. -/
theorem C7_locator_behavior :
    (∀ (fetch : Str → List VLine) (current : VLine) (main_rest : List VLine)
        (chrom : Str) (pos : Int) (ref alt : Str),
      seek_out_variant fetch current main_rest chrom pos ref alt =
        seek_scan (get_minimal_representation pos ref alt)
          (scanned_lines current
            (fetch (chrom ++ ":".data
              ++ int_str (pos - max (ref.length : Int) (alt.length : Int))
              ++ "-".data
              ++ int_str (pos + max (ref.length : Int) (alt.length : Int))))
            main_rest)) ∧
    (∀ (current : VLine) (main_rest : List VLine),
      scanned_lines current [] main_rest = current :: main_rest) ∧
    (∀ (current l : VLine) (ls main_rest : List VLine),
      scanned_lines current (l :: ls) main_rest = current :: l :: ls) ∧
    (∀ (target : Int × Str × Str) (pre : List VLine) (l : VLine)
        (post : List VLine) (p : Int) (i : Nat),
      (∀ m ∈ pre, ∃ q, pyInt m.pos = some q ∧
        index_of_target target (line_candidates m q) = none) →
      pyInt l.pos = some p →
      index_of_target target (line_candidates l p) = some i →
      seek_scan target (pre ++ l :: post) = .ok (some (i + 1))) ∧
    (∀ (target : Int × Str × Str) (lines : List VLine),
      (∀ m ∈ lines, ∃ q, pyInt m.pos = some q ∧
        index_of_target target (line_candidates m q) = none) →
      seek_scan target lines = .ok none) := by
  refine ⟨fun _ _ _ _ _ _ _ => rfl, fun _ _ => rfl, fun _ _ _ _ => rfl, ?_, ?_⟩
  · intro target pre
    induction pre with
    | nil =>
      intro l post p i _ hp hi
      simp [seek_scan, hp, hi]
    | cons m pre ih =>
      intro l post p i hpre hp hi
      obtain ⟨q, hq, hnone⟩ := hpre m (List.mem_cons_self _ _)
      have hrec := ih l post p i
        (fun x hx => hpre x (List.mem_cons_of_mem _ hx)) hp hi
      simp [seek_scan, hq, hnone, hrec]
  · intro target lines hl
    induction lines with
    | nil => rfl
    | cons m rest ih =>
      obtain ⟨q, hq, hnone⟩ := hl m (List.mem_cons_self _ _)
      have hrec := ih (fun x hx => hl x (List.mem_cons_of_mem _ hx))
      simp [seek_scan, hq, hnone, hrec]

theorem C7_locator_witness :
    seek_scan (get_minimal_representation 100 "A".data "C".data)
        [⟨"100".data, "A".data, "G,C,T".data⟩] = .ok (some 2) :=
  C7_locator_behavior.2.2.2.1 (get_minimal_representation 100 "A".data "C".data)
    [] ⟨"100".data, "A".data, "G,C,T".data⟩ [] 100 1
    (by intro m hm; cases hm) rfl rfl

/-- C10: the site-selection loop aborts the whole run with the
`No VEP annotations found.` exception at the first record whose annotation
list is absent or empty, regardless of what follows; and on a run that
completes, the output consists of the line of each accepted record exactly
once, in input order — a record is emitted at most once even when several
of its annotations satisfy the filter and the gene predicate. -/
theorem C10_site_loop :
    (∀ (evalT : Dict → Except Str Bool) (hgnc ensg : List Str)
        (pre : List SiteRec) (bad : SiteRec) (post : List SiteRec),
      (∀ s ∈ pre, ∃ b, proc_site evalT hgnc ensg s = .ok b) →
      (bad.anns = none ∨ bad.anns = some []) →
      subset evalT hgnc ensg (pre ++ bad :: post) =
        .error "No VEP annotations found.".data) ∧
    (∀ (evalT : Dict → Except Str Bool) (hgnc ensg : List Str)
        (sites : List SiteRec) (out : List Str),
      subset evalT hgnc ensg sites = .ok out →
      out = (sites.filter (fun s =>
        match proc_site evalT hgnc ensg s with
        | .ok true => true
        | _ => false)).map SiteRec.line) := by
  constructor
  · intro evalT hgnc ensg pre
    induction pre with
    | nil =>
      intro bad post _ hbad
      rcases hbad with hbad | hbad <;>
        simp [subset, proc_site, hbad]
    | cons s pre ih =>
      intro bad post hpre hbad
      obtain ⟨b, hb⟩ := hpre s (List.mem_cons_self _ _)
      have hrec := ih bad post
        (fun x hx => hpre x (List.mem_cons_of_mem _ hx)) hbad
      simp [subset, hb, hrec]
  · intro evalT hgnc ensg sites
    induction sites with
    | nil =>
      intro out h
      cases h
      rfl
    | cons s rest ih =>
      intro out h
      simp only [subset] at h
      cases hp : proc_site evalT hgnc ensg s with
      | error m => rw [hp] at h; cases h
      | ok b =>
        rw [hp] at h
        cases hrest : subset evalT hgnc ensg rest with
        | error m => rw [hrest] at h; cases h
        | ok out0 =>
          rw [hrest] at h
          have hout : (if b then s.line :: out0 else out0) = out := by
            cases h; rfl
          subst hout
          have := ih out0 hrest
          cases b <;> simp [List.filter_cons, hp, this]

theorem C10_witness :
    subset (fun _ => .ok true) [] []
        [⟨"L0".data, some [[("g".data, "x".data)]]⟩, ⟨"L1".data, none⟩,
         ⟨"L2".data, some [[("g".data, "x".data)]]⟩] =
      .error "No VEP annotations found.".data ∧
    ["L0".data] =
      (([⟨"L0".data, some [[("g".data, "x".data)], [("g".data, "y".data)]]⟩] :
          List SiteRec).filter (fun s =>
        match proc_site (fun _ => .ok true) [] [] s with
        | .ok true => true
        | _ => false)).map SiteRec.line := by
  constructor
  · exact C10_site_loop.1 (fun _ => .ok true) [] []
      [⟨"L0".data, some [[("g".data, "x".data)]]⟩] ⟨"L1".data, none⟩
      [⟨"L2".data, some [[("g".data, "x".data)]]⟩]
      (by intro s hs; simp at hs; subst hs; exact ⟨true, rfl⟩)
      (Or.inl rfl)
  · exact C10_site_loop.2 (fun _ => .ok true) [] []
      [⟨"L0".data, some [[("g".data, "x".data)], [("g".data, "y".data)]]⟩]
      ["L0".data] rfl

end VcfUtils
